import Mathlib

/-!
Verification development for the RAG chat-bot backend.

This file gives a shallow embedding of the knowledge-base loader and the
retrieval/answer pipeline of `src/rag_engine.py` (together with the storage
adapter `src/supabase_manager.py`), and proves or refutes the behavioural
properties stated in the system specification.

Modelling conventions:
* Python strings are Lean `String`s; the Python string operations used by the
  source (`lower`, `strip`, `startswith`, `in`, slicing, `join`) are
  re-implemented below over `List Char` so that they compute by structural
  recursion.
* The FAISS vector store is modelled as an abstract search function
  `search : String → Nat → List Document` (the result list of
  `similarity_search(query, k)`).  Searches issued by the answer pipeline are
  modelled as total; the loader's post-publication smoke-test search
  (rag_engine.py line 87) instead carries its own failure flag in
  `LoadWorld`, because a raise there is the one failure that happens after
  the global `db` has already been rebound at line 81.
* The Gemini client is modelled as a function `String → Except String String`:
  a call either returns the response text or raises an exception carrying an
  error message (the string the source passes to `is_network_error`).
* `get_answer` is embedded as an instrumented pure function returning, besides
  the answer text, the observable effects the claims speak about: the issued
  similarity-search calls, the retrieved documents, the context string passed
  to the model, and the number of language-model calls made for rewriting and
  for synthesis.  Logging-only steps of the source (`extract_links`,
  `detect_query_type`, logger calls) have no observable effect and are omitted.
* Python's `hash(s[:200])` fingerprint is modelled by the 200-character prefix
  itself.  A hash collision in the source could only drop extra documents,
  never produce two documents with the same prefix, so the deduplication
  properties proved here are faithful.
-/

namespace RagBot

/-! ## Python-style string primitives -/

/-- ASCII lowering of a string, the model of Python `str.lower()` on the ASCII
text the source manipulates. -/
def pyLower (s : String) : String :=
  String.mk (s.data.map Char.toLower)

/-- Whitespace test used by the model of Python `str.strip()`. -/
def isSpaceChar (c : Char) : Bool :=
  c == ' ' || c == '\t' || c == '\n' || c == '\r'

/-- Model of Python `str.strip()`: drop leading and trailing whitespace. -/
def pyStrip (s : String) : String :=
  String.mk (((s.data.dropWhile isSpaceChar).reverse.dropWhile isSpaceChar).reverse)

/-- Does `needle` occur as a contiguous sublist of the character list? -/
def listContainsSub (needle : List Char) : List Char → Bool
  | [] => needle.isEmpty
  | c :: rest => needle.isPrefixOf (c :: rest) || listContainsSub needle rest

/-- Model of Python's substring test `needle in hay`. -/
def strContains (hay needle : String) : Bool :=
  listContainsSub needle.data hay.data

/-- Model of Python `s.startswith(p)`. -/
def pyStartsWith (s p : String) : Bool :=
  p.data.isPrefixOf s.data

/-- Model of Python `sep.join(parts)`. -/
def pyJoin (sep : String) : List String → String
  | [] => ""
  | x :: xs => xs.foldl (fun acc y => acc ++ sep ++ y) x

/-! ## Data model -/

/-- A retrieved document chunk (langchain `Document`); the pipeline only ever
reads `page_content`. -/
structure Document where
  page_content : String
deriving Repr, DecidableEq

/-- One stored conversation turn (the `Chat` ORM row as used by
`rewrite_question`: only `question` and `answer` are read). -/
structure Chat where
  question : String
  answer : String
deriving Repr, DecidableEq

/-- The language-model client: `generate_content` either returns the response
text or raises with an error message. -/
def LLMClient : Type := String → Except String String

/-- The loaded FAISS vector store, abstracted to its `similarity_search`
behaviour: `search query k` is the returned document list. -/
structure VectorStore where
  search : String → Nat → List Document

/-! ## rag_engine.py — question classifiers -/

/-- The fixed greeting phrase set of `is_greeting`. -/
def greetings : List String :=
  ["hello", "hi", "hey", "good morning", "good afternoon",
   "good evening", "greetings", "howdy", "hola", "namaste",
   "hi there", "hello there"]

/-- `is_greeting(question)`: the lowercased, stripped question equals a
greeting or starts with a greeting followed by a space or comma. -/
def is_greeting (question : String) : Bool :=
  let question_lower := pyStrip (pyLower question)
  greetings.any (fun g =>
    question_lower == g
      || pyStartsWith question_lower (g ++ " ")
      || pyStartsWith question_lower (g ++ ","))

/-- The keyword list of `is_network_error`. -/
def network_keywords : List String :=
  ["connection", "network", "timeout", "unreachable",
   "dns", "socket", "http", "ssl", "certificate",
   "connection refused", "connection reset", "connection aborted",
   "failed to establish", "name resolution", "timed out"]

/-- `is_network_error(error)`: some network keyword occurs in the lowercased
error text. -/
def is_network_error (error : String) : Bool :=
  let error_str := pyLower error
  network_keywords.any (fun keyword => strContains error_str keyword)

/-- The indicator list of `is_list_query`. -/
def list_indicators : List String :=
  ["list", "all", "what are", "show me", "tell me about all",
   "services", "offerings", "products", "solutions",
   "everything", "complete", "full list", "entire"]

/-- `is_list_query(question)`: some list indicator occurs in the lowercased
question. -/
def is_list_query (question : String) : Bool :=
  let question_lower := pyLower question
  list_indicators.any (fun indicator => strContains question_lower indicator)

/-! ## rag_engine.py — comprehensive retrieval -/

/-- The content identifier `get_comprehensive_docs` deduplicates by: the first
200 characters of `page_content` (the source hashes this prefix; the prefix
itself is the faithful lossless stand-in). -/
def fingerprint (d : Document) : String :=
  String.mk (d.page_content.data.take 200)

/-- One pass of the source's dedup loop: append each document of the batch
whose fingerprint is not yet in `seen`, extending `seen` accordingly. -/
def addNewDocs (acc : List Document) (seen : List String) :
    List Document → List Document × List String
  | [] => (acc, seen)
  | d :: ds =>
    if seen.contains (fingerprint d) then addNewDocs acc seen ds
    else addNewDocs (acc ++ [d]) (seen ++ [fingerprint d]) ds

/-- The `additional_searches` list computed by `get_comprehensive_docs` from
keyword categories of the (lowercased) query. -/
def additional_search_queries (query : String) : List String :=
  let query_lower := pyLower query
  if ["service", "offering", "solution", "product"].any
      (fun word => strContains query_lower word) then
    ["services and solutions", "what we offer", "our offerings",
     "products and services"]
  else if ["job", "career", "hiring"].any
      (fun word => strContains query_lower word) then
    ["careers and jobs", "work with us", "join our team"]
  else if ["blog", "article", "post"].any
      (fun word => strContains query_lower word) then
    ["blog posts", "articles and content", "latest updates"]
  else []

/-- The source's `for additional_query in additional_searches` loop: each
additional query is searched with k = 5 and merged through the dedup pass;
the issued calls are recorded. -/
def run_additional_searches (store : VectorStore) (acc : List Document)
    (seen : List String) (calls : List (String × Nat)) :
    List String → List Document × List String × List (String × Nat)
  | [] => (acc, seen, calls)
  | aq :: rest =>
    let p := addNewDocs acc seen (store.search aq 5)
    run_additional_searches store p.1 p.2 (calls ++ [(aq, 5)]) rest

/-- `get_comprehensive_docs(db, query, k)`: primary search at `k`, then the
category-dependent additional searches at k = 5, merged with fingerprint
dedup.  Returns the merged documents and the issued `(query, k)` calls. -/
def get_comprehensive_docs (store : VectorStore) (query : String) (k : Nat) :
    List Document × List (String × Nat) :=
  let p := addNewDocs [] [] (store.search query k)
  let r := run_additional_searches store p.1 p.2 [(query, k)]
    (additional_search_queries query)
  (r.1, r.2.2)

/-! ## rag_engine.py — canned response texts -/

/-- The canned greeting returned by `get_answer` for greeting questions. -/
def greeting_response : String :=
  "Hello! 👋 I'm the Primis Digital support assistant. I can help you with information about our services, careers, blog posts, and more. How can I assist you today?"

/-- Returned while `is_loading` is still true. -/
def loading_response : String :=
  "The knowledge base is still loading. Please try again in a moment."

/-- Returned when the vector store global `db` is `None`. -/
def db_unavailable_response : String :=
  "I'm having trouble accessing the knowledge base right now. Please try again in a moment or contact our team directly."

/-- Returned when the Gemini client global is `None`. -/
def ai_unavailable_response : String :=
  "AI service is not available. Please contact support."

/-- Returned when retrieval produced no documents. -/
def no_docs_response : String :=
  "I couldn't find specific information about that in our knowledge base. Please contact our team for further information. You can reach us through our website's contact form or email us directly."

/-- Returned when the synthesis call raised a network-related error. -/
def network_error_response : String :=
  "We're experiencing network connectivity issues at the moment. Please try again in a few moments. If the problem persists, please contact our support team."

/-- Returned when the synthesis call raised any other error. -/
def generic_error_response : String :=
  "I apologize, but I encountered an issue while processing your request. Please contact our team for further assistance."

/-- Every non-greeting, non-synthesized answer text `get_answer` can return. -/
def failure_responses : List String :=
  [loading_response, db_unavailable_response, ai_unavailable_response,
   no_docs_response, network_error_response, generic_error_response]

/-! ## rag_engine.py — prompt construction -/

/-- The `specific_instructions` block for list questions. -/
def list_instructions : String :=
  "\n- **CRITICAL**: The user is asking for a LIST. You MUST provide a COMPLETE and COMPREHENSIVE list of ALL items found in the context\n- Do NOT summarize or give examples - LIST EVERY SINGLE ITEM mentioned in the context\n- Use bullet points or numbered lists for clarity\n- Include brief descriptions for each item\n- If services/products are mentioned, list ALL of them with their details\n- Do not say \"such as\" or \"including\" - be exhaustive and complete"

/-- The `specific_instructions` block for non-list questions. -/
def default_instructions : String :=
  "\n- Provide detailed and specific information\n- If multiple items are mentioned, cover all of them\n- Be thorough and complete in your response"

/-- The synthesis prompt of `get_answer`, with the assembled context and the
original question interpolated. -/
def answer_prompt (context question : String) (is_asking_for_list : Bool) : String :=
  let specific_instructions :=
    if is_asking_for_list then list_instructions else default_instructions
  "You are a helpful assistant for Primis Digital, a technology company.\n\nBased on the following information from Primis Digital's website, answer the user's question accurately and professionally.\n\nCONTEXT FROM PRIMIS DIGITAL:\n"
    ++ context
    ++ "\n\nUSER QUESTION: " ++ question
    ++ "\n\nGENERAL INSTRUCTIONS:\n- Answer based ONLY on the provided context\n- Be specific and cite relevant details\n- If the context doesn't contain enough information to fully answer, end your response with: \"Please contact our team for further information.\"\n- Keep your answer professional and well-formatted\n- Use clear paragraphs and formatting\n"
    ++ specific_instructions
    ++ "\n\nLINK HANDLING INSTRUCTIONS:\n- **CRITICAL**: If there are any URLs/links in the context that are relevant to the question, you MUST include them in your answer\n- For job-related queries: Include ALL career page links and mention how to apply\n- For blog-related queries: Include ALL direct links to blog posts or articles  \n- For service-related queries: Include ALL service page links with descriptions\n- Format links clearly: either as clickable text or on separate lines\n- If multiple relevant links exist, include ALL of them - do not omit any\n\nANSWER:"

/-- The `conversation` accumulator of `rewrite_question`. -/
def conversation_text (chat_history : List Chat) : String :=
  chat_history.foldl
    (fun acc chat =>
      acc ++ "User: " ++ chat.question ++ "\nAssistant: " ++ chat.answer ++ "\n")
    ""

/-- The rewrite prompt of `rewrite_question`. -/
def rewrite_prompt (chat_history : List Chat) (user_question : String) : String :=
  "You are a query rewriter.\n\nGiven the conversation below and a follow-up question, rewrite the question so it can be understood independently without the conversation context.\n\nConversation:\n"
    ++ conversation_text chat_history
    ++ "\n\nFollow-up question:\n" ++ user_question
    ++ "\n\nRewritten standalone question:"

/-- `rewrite_question(chat_history, user_question)`: ask the model for a
standalone question; on a model error, or when the stripped response is
empty, fall back to the original question. -/
def rewrite_question (llm : LLMClient) (chat_history : List Chat)
    (user_question : String) : String :=
  match llm (rewrite_prompt chat_history user_question) with
  | Except.ok t =>
    let rewritten := pyStrip t
    if rewritten == "" then user_question else rewritten
  | Except.error _ => user_question

/-! ## rag_engine.py — get_answer -/

/-- The module-level globals of `rag_engine.py` that `get_answer` reads,
together with the conversation history its collaborators would return:
`history` is the list `get_recent_messages` yields for the request's session
(empty on an unknown session or a history-fetch error, matching the source's
fallbacks). -/
structure Env where
  is_loading : Bool
  db : Option VectorStore
  gemini_client : Option LLMClient
  history : List Chat

/-- The instrumented outcome of one `get_answer` call: the returned answer
text plus the observable effects — the search query used for retrieval, the
issued `similarity_search` calls `(query, k)`, the retrieved documents, the
context string interpolated into the synthesis prompt, and the number of
language-model calls made for rewriting and for synthesis. -/
structure AnswerResult where
  answer : String
  queryUsed : Option String
  searchCalls : List (String × Nat)
  retrieved : List Document
  contextUsed : Option String
  rewriteLlmCalls : Nat
  answerLlmCalls : Nat

/-- The `search_query` local of `get_answer`: the original question, or its
best-effort rewrite when a session with a non-empty history is present. -/
def computed_search_query (llm : LLMClient) (history : List Chat)
    (question : String) (hasSession : Bool) : String :=
  if hasSession && !history.isEmpty then rewrite_question llm history question
  else question

/-- The retrieval step of `get_answer`: comprehensive search at k = 15 when
the question matches a list indicator, one plain `similarity_search` at k = 6
otherwise.  The second component records the issued `(query, k)` calls. -/
def retrieval_of (store : VectorStore) (question search_query : String) :
    List Document × List (String × Nat) :=
  if is_list_query question then get_comprehensive_docs store search_query 15
  else (store.search search_query 6, [(search_query, 6)])

/-- `get_answer(question, session_id, db_session)` embedded over `Env`;
`hasSession` is the truth of the source's `session_id and db_session` test. -/
def get_answer (env : Env) (question : String) (hasSession : Bool) : AnswerResult :=
  if is_greeting question then
    { answer := greeting_response, queryUsed := none, searchCalls := [],
      retrieved := [], contextUsed := none, rewriteLlmCalls := 0, answerLlmCalls := 0 }
  else if env.is_loading then
    { answer := loading_response, queryUsed := none, searchCalls := [],
      retrieved := [], contextUsed := none, rewriteLlmCalls := 0, answerLlmCalls := 0 }
  else
    match env.db with
    | none =>
      { answer := db_unavailable_response, queryUsed := none, searchCalls := [],
        retrieved := [], contextUsed := none, rewriteLlmCalls := 0, answerLlmCalls := 0 }
    | some store =>
      match env.gemini_client with
      | none =>
        { answer := ai_unavailable_response, queryUsed := none, searchCalls := [],
          retrieved := [], contextUsed := none, rewriteLlmCalls := 0, answerLlmCalls := 0 }
      | some llm =>
        let search_query := computed_search_query llm env.history question hasSession
        let rewriteCalls := if hasSession && !env.history.isEmpty then 1 else 0
        let is_asking_for_list := is_list_query question
        let retrievalResult := retrieval_of store question search_query
        let docs := retrievalResult.1
        let calls := retrievalResult.2
        if docs.isEmpty then
          { answer := no_docs_response, queryUsed := some search_query,
            searchCalls := calls, retrieved := docs, contextUsed := none,
            rewriteLlmCalls := rewriteCalls, answerLlmCalls := 0 }
        else
          let context := pyJoin "\n\n---\n\n" (docs.map Document.page_content)
          let prompt := answer_prompt context question is_asking_for_list
          match llm prompt with
          | Except.ok t =>
            { answer := pyStrip t, queryUsed := some search_query,
              searchCalls := calls, retrieved := docs, contextUsed := some context,
              rewriteLlmCalls := rewriteCalls, answerLlmCalls := 1 }
          | Except.error e =>
            if is_network_error e then
              { answer := network_error_response, queryUsed := some search_query,
                searchCalls := calls, retrieved := docs, contextUsed := some context,
                rewriteLlmCalls := rewriteCalls, answerLlmCalls := 1 }
            else
              { answer := generic_error_response, queryUsed := some search_query,
                searchCalls := calls, retrieved := docs, contextUsed := some context,
                rewriteLlmCalls := rewriteCalls, answerLlmCalls := 1 }

/-! ## rag_engine.py — the loader (load_vectorstore, start_loading_vectorstore)

`load_vectorstore` runs in a background thread, reads and writes the globals
`db` and `is_loading`, and interacts with the outside world: the Supabase
storage client, the embedding model, and FAISS deserialization.  The external
world of one execution is captured by `LoadWorld`; the procedure is the state
transformer on `EngineState` (the globals) it induces, instrumented with the
list of remote paths for which `download_file` was invoked. -/

/-- The loader-visible globals: the published vector store `db` and the
`is_loading` flag. -/
structure EngineState where
  db : Option VectorStore
  is_loading : Bool

/-- The external-world behaviour one `load_vectorstore` execution observes:
whether the storage-client construction succeeds, which remote downloads
succeed, whether the downloaded file exists afterwards, whether the embedding
model loads, the result of `FAISS.load_local` (`none` models a
deserialization failure), and whether the post-publication smoke-test search
`db.similarity_search("test query", k=1)` at line 87 returns without raising
(it can raise, e.g. on a dimension mismatch that only surfaces at query
time). -/
structure LoadWorld where
  storage_ok : Bool
  download_ok : String → Bool
  exists_after : String → Bool
  embeddings_ok : Bool
  faiss_load : Option VectorStore
  test_search_ok : Bool

/-- `files_to_download` of `load_vectorstore`. -/
def files_to_download : List String := ["index.faiss", "index.pkl"]

/-- `f"{REMOTE_FOLDER}/{filename}"` with `REMOTE_FOLDER = "vectorstore"`. -/
def remote_path_of (filename : String) : String :=
  "vectorstore" ++ "/" ++ filename

/-- The download loop of `load_vectorstore`: one `download_file` call per
file, aborting on the first failure (a failed download or a missing file
raises, ending the loop).  Returns the attempted remote paths and whether the
loop completed. -/
def download_all (w : LoadWorld) : List String → List String × Bool
  | [] => ([], true)
  | f :: fs =>
    let rp := remote_path_of f
    if w.download_ok rp then
      if w.exists_after rp then
        let r := download_all w fs
        (rp :: r.1, r.2)
      else ([rp], false)
    else ([rp], false)

/-- `load_vectorstore()` as a state transformer.  An exception before line 81
(storage-client construction, download, existence check, embedding-model
init, `FAISS.load_local`) reaches the `except` block with `db` untouched.
When `FAISS.load_local` returns, line 81 rebinds the global `db` to the new
store *before* the line-87 smoke-test search: if that search then raises, the
`except` block runs with `db` already replaced; if it returns, line 93 marks
success.  Both paths clear `is_loading` (line 93 or line 99), so the two
post-publication branches end in the same state and differ only in which code
path was taken (recorded by `load_succeeded`).  The second component is the
list of remote paths passed to `download_file`. -/
def load_vectorstore (w : LoadWorld) (st : EngineState) :
    EngineState × List String :=
  if w.storage_ok then
    let dl := download_all w files_to_download
    if dl.2 then
      if w.embeddings_ok then
        match w.faiss_load with
        | some store =>
          if w.test_search_ok then ({ db := some store, is_loading := false }, dl.1)
          else ({ db := some store, is_loading := false }, dl.1)
        | none => ({ db := st.db, is_loading := false }, dl.1)
      else ({ db := st.db, is_loading := false }, dl.1)
    else ({ db := st.db, is_loading := false }, dl.1)
  else ({ db := st.db, is_loading := false }, [])

/-- Did the execution described by `w` reach line 81's rebinding of the
global `db` with a successfully deserialized store? -/
def load_published (w : LoadWorld) : Bool :=
  w.storage_ok && (download_all w files_to_download).2
    && w.embeddings_ok && w.faiss_load.isSome

/-- Did the execution described by `w` reach the success end of
`load_vectorstore` (line 93, no exception raised) — i.e. it published the
store and the smoke-test search also returned? -/
def load_succeeded (w : LoadWorld) : Bool :=
  load_published w && w.test_search_ok

/-- `start_loading_vectorstore()`: unconditionally spawns one more background
thread executing `load_vectorstore` — the source consults no state before
spawning.  The list tracks the load executions started so far. -/
def start_loading_vectorstore
    (spawned : List (LoadWorld → EngineState → EngineState × List String)) :
    List (LoadWorld → EngineState → EngineState × List String) :=
  spawned ++ [load_vectorstore]

/-! ## Theorems -/

/-- Claim C3 counterexample: two calls to `start_loading_vectorstore` spawn
two executions of the load procedure, not one — there is no single-flight
guard. -/
theorem start_load_twice_not_single_flight :
    (start_loading_vectorstore (start_loading_vectorstore [])).length ≠ 1 := by
  simp [start_loading_vectorstore]

/-- Claim C3 amended: `start_loading_vectorstore` consults no state and
unconditionally spawns a fresh loader thread, so n calls spawn exactly n
executions of the load procedure. -/
theorem start_load_spawns_one_load_per_call
    (spawned : List (LoadWorld → EngineState → EngineState × List String))
    (n : Nat) :
    (Nat.iterate start_loading_vectorstore n spawned).length = spawned.length + n := by
  induction n generalizing spawned with
  | zero => rfl
  | succ k ih =>
    have h : Nat.iterate start_loading_vectorstore (k + 1) spawned
        = Nat.iterate start_loading_vectorstore k (start_loading_vectorstore spawned) := rfl
    rw [h, ih]
    simp [start_loading_vectorstore]
    omega

/-- Claim C4 counterexample: a load whose smoke-test search raises after
`FAISS.load_local` returned (e.g. a dimension mismatch that only surfaces at
query time) is a failed execution of the load procedure that has nevertheless
already replaced the previously published index — the resulting `db` differs
from the one published before the reload. -/
theorem failed_load_can_replace_published_index :
    load_succeeded ⟨true, fun _ => true, fun _ => true, true,
        some ⟨fun _ _ => [⟨"new chunk"⟩]⟩, false⟩ = false ∧
    (load_vectorstore ⟨true, fun _ => true, fun _ => true, true,
        some ⟨fun _ _ => [⟨"new chunk"⟩]⟩, false⟩
      ⟨some ⟨fun _ _ => [⟨"old chunk"⟩]⟩, false⟩).1.db
      ≠ (⟨some ⟨fun _ _ => [⟨"old chunk"⟩]⟩, false⟩ : EngineState).db := by
  refine ⟨rfl, ?_⟩
  intro h
  have h2 : ([⟨"new chunk"⟩] : List Document) = [⟨"old chunk"⟩] :=
    congrArg (fun o : Option VectorStore =>
      match o with
      | none => ([] : List Document)
      | some s => s.search "" 0) h
  exact absurd h2 (by decide)

/-- Claim C4 amended: a load execution that fails *before* the publication
point — storage-client construction, download, existence check,
embedding-model init, or `FAISS.load_local` failure — leaves the previously
published index exactly as it was; but a load that fails at the
post-publication smoke-test search has already replaced the published index
with the freshly deserialized store.  Every failing execution clears the
loading flag. -/
theorem failed_load_frame_characterization (w : LoadWorld) (st : EngineState)
    (hfail : load_succeeded w = false) :
    (load_vectorstore w st).1.is_loading = false ∧
    (load_published w = false → (load_vectorstore w st).1.db = st.db) ∧
    (load_published w = true →
      w.test_search_ok = false ∧
      (load_vectorstore w st).1.db = w.faiss_load) := by
  cases hso : w.storage_ok with
  | false => simp [load_vectorstore, load_published, hso]
  | true =>
    cases hdl : (download_all w files_to_download).2 with
    | false => simp [load_vectorstore, load_published, hso, hdl]
    | true =>
      cases hem : w.embeddings_ok with
      | false => simp [load_vectorstore, load_published, hso, hdl, hem]
      | true =>
        cases hf : w.faiss_load with
        | none => simp [load_vectorstore, load_published, hso, hdl, hem, hf]
        | some s =>
          have hts : w.test_search_ok = false := by
            rw [load_succeeded, load_published, hso, hdl, hem, hf] at hfail
            simpa using hfail
          refine ⟨?_, ?_, ?_⟩
          · simp [load_vectorstore, hso, hdl, hem, hf]
          · intro hp
            exfalso
            rw [load_published, hso, hdl, hem, hf] at hp
            simp at hp
          · intro _
            exact ⟨hts, by simp [load_vectorstore, hso, hdl, hem, hf]⟩

/-- Claim C4 witness: a pre-publication failure (first remote download fails)
leaves the previously published store in place and clears the loading
flag. -/
theorem failed_load_frame_characterization_witness :
    load_succeeded ⟨true, fun _ => false, fun _ => true, true, none, true⟩ = false ∧
    ((load_vectorstore ⟨true, fun _ => false, fun _ => true, true, none, true⟩
        ⟨some ⟨fun _ _ => [⟨"old chunk"⟩]⟩, true⟩).1.is_loading = false ∧
     (load_published ⟨true, fun _ => false, fun _ => true, true, none, true⟩ = false →
       (load_vectorstore ⟨true, fun _ => false, fun _ => true, true, none, true⟩
          ⟨some ⟨fun _ _ => [⟨"old chunk"⟩]⟩, true⟩).1.db
         = (⟨some ⟨fun _ _ => [⟨"old chunk"⟩]⟩, true⟩ : EngineState).db) ∧
     (load_published ⟨true, fun _ => false, fun _ => true, true, none, true⟩ = true →
       (⟨true, fun _ => false, fun _ => true, true, none, true⟩ : LoadWorld).test_search_ok
         = false ∧
       (load_vectorstore ⟨true, fun _ => false, fun _ => true, true, none, true⟩
          ⟨some ⟨fun _ _ => [⟨"old chunk"⟩]⟩, true⟩).1.db
         = (⟨true, fun _ => false, fun _ => true, true, none, true⟩ : LoadWorld).faiss_load)) :=
  ⟨rfl,
   failed_load_frame_characterization
     ⟨true, fun _ => false, fun _ => true, true, none, true⟩
     ⟨some ⟨fun _ _ => [⟨"old chunk"⟩]⟩, true⟩ rfl⟩

/-- Claim C2 counterexample: with every remote download failing (and a local
copy that would deserialize fine), `load_vectorstore` calls `download_file`
exactly once — for the first artifact — and then declares the load failed
with no retry, no backoff and no local-path fallback. -/
theorem load_gives_up_after_single_attempt :
    (load_vectorstore ⟨true, fun _ => false, fun _ => true, true,
        some ⟨fun _ _ => [⟨"bundled chunk"⟩]⟩, true⟩ ⟨none, true⟩).2
      = [remote_path_of "index.faiss"] ∧
    (load_vectorstore ⟨true, fun _ => false, fun _ => true, true,
        some ⟨fun _ _ => [⟨"bundled chunk"⟩]⟩, true⟩ ⟨none, true⟩).1.db = none := by
  exact ⟨rfl, rfl⟩

/-- Claim C2 amended: the load procedure attempts each of the two artifacts at
most once from the remote store (never more than two `download_file` calls in
total) and aborts on the first failed download: if the first artifact's
download fails, exactly one download is attempted and the load ends with the
published index unchanged. -/
theorem load_no_retry_no_fallback (w : LoadWorld) (st : EngineState) :
    (load_vectorstore w st).2.length ≤ 2 ∧
    (w.download_ok (remote_path_of "index.faiss") = false →
      (load_vectorstore w st).2.length ≤ 1 ∧
      (load_vectorstore w st).1.db = st.db) := by
  cases hso : w.storage_ok with
  | false => simp [load_vectorstore, hso]
  | true =>
    cases h1 : w.download_ok (remote_path_of "index.faiss") with
    | false =>
      simp [load_vectorstore, download_all, files_to_download, hso, h1]
    | true =>
      cases he1 : w.exists_after (remote_path_of "index.faiss") with
      | false =>
        simp [load_vectorstore, download_all, files_to_download, hso, h1, he1]
      | true =>
        cases h2 : w.download_ok (remote_path_of "index.pkl") with
        | false =>
          refine ⟨?_, ?_⟩
          · simp [load_vectorstore, download_all, files_to_download, hso, h1, he1, h2]
          · intro hcontra; exact absurd hcontra (by simp)
        | true =>
          cases he2 : w.exists_after (remote_path_of "index.pkl") with
          | false =>
            refine ⟨?_, ?_⟩
            · simp [load_vectorstore, download_all, files_to_download,
                hso, h1, he1, h2, he2]
            · intro hcontra; exact absurd hcontra (by simp)
          | true =>
            refine ⟨?_, ?_⟩
            · cases hem : w.embeddings_ok with
              | false =>
                simp [load_vectorstore, download_all, files_to_download,
                  hso, h1, he1, h2, he2, hem]
              | true =>
                cases hf : w.faiss_load with
                | none =>
                  simp [load_vectorstore, download_all, files_to_download,
                    hso, h1, he1, h2, he2, hem, hf]
                | some s =>
                  simp [load_vectorstore, download_all, files_to_download,
                    hso, h1, he1, h2, he2, hem, hf]
            · intro hcontra; exact absurd hcontra (by simp)

/-- Claim C2 witness: at most two downloads ever happen; with the first
download failing only one is attempted and the index is untouched. -/
theorem load_no_retry_no_fallback_witness :
    (load_vectorstore ⟨true, fun _ => false, fun _ => true, false, none, true⟩
        ⟨none, true⟩).2.length ≤ 2 ∧
    ((load_vectorstore ⟨true, fun _ => false, fun _ => true, false, none, true⟩
        ⟨none, true⟩).2.length ≤ 1 ∧
     (load_vectorstore ⟨true, fun _ => false, fun _ => true, false, none, true⟩
        ⟨none, true⟩).1.db = (⟨none, true⟩ : EngineState).db) :=
  ⟨(load_no_retry_no_fallback ⟨true, fun _ => false, fun _ => true, false, none, true⟩
      ⟨none, true⟩).1,
   (load_no_retry_no_fallback ⟨true, fun _ => false, fun _ => true, false, none, true⟩
      ⟨none, true⟩).2 rfl⟩

/-- Claim C10: every terminating execution of the load procedure clears
`is_loading`, on the success path and on every exception path alike; and once
it has finished, if the index is still unset the answer operation returns the
knowledge-base-unavailable message (never again the "still loading" one) for
any non-greeting question. -/
theorem load_always_clears_loading_flag (w : LoadWorld) (st : EngineState) :
    (load_vectorstore w st).1.is_loading = false ∧
    (∀ (question : String) (hasSession : Bool) (g : Option LLMClient)
        (hist : List Chat),
      is_greeting question = false →
      (load_vectorstore w st).1.db = none →
      (get_answer ⟨(load_vectorstore w st).1.is_loading,
          (load_vectorstore w st).1.db, g, hist⟩ question hasSession).answer
        = db_unavailable_response) := by
  have hflag : (load_vectorstore w st).1.is_loading = false := by
    cases hso : w.storage_ok with
    | false => simp [load_vectorstore, hso]
    | true =>
      cases hdl : (download_all w files_to_download).2 with
      | false => simp [load_vectorstore, hso, hdl]
      | true =>
        cases hem : w.embeddings_ok with
        | false => simp [load_vectorstore, hso, hdl, hem]
        | true =>
          cases hf : w.faiss_load with
          | none => simp [load_vectorstore, hso, hdl, hem, hf]
          | some s => simp [load_vectorstore, hso, hdl, hem, hf]
  refine ⟨hflag, ?_⟩
  intro question hasSession g hist hq hdb
  rw [hflag, hdb]
  simp [get_answer, hq]

/-- Claim C10 witness: a failed load ends with the loading flag cleared, and
the subsequent answer for a non-greeting question is the
knowledge-base-unavailable message. -/
theorem load_always_clears_loading_flag_witness :
    (load_vectorstore ⟨false, fun _ => false, fun _ => false, false, none, true⟩
        ⟨none, true⟩).1.is_loading = false ∧
    is_greeting "what do you offer" = false ∧
    (get_answer ⟨(load_vectorstore ⟨false, fun _ => false, fun _ => false, false, none, true⟩
          ⟨none, true⟩).1.is_loading,
        (load_vectorstore ⟨false, fun _ => false, fun _ => false, false, none, true⟩
          ⟨none, true⟩).1.db, none, []⟩ "what do you offer" false).answer
      = db_unavailable_response :=
  ⟨(load_always_clears_loading_flag
      ⟨false, fun _ => false, fun _ => false, false, none, true⟩ ⟨none, true⟩).1,
   by decide,
   (load_always_clears_loading_flag
      ⟨false, fun _ => false, fun _ => false, false, none, true⟩ ⟨none, true⟩).2
     "what do you offer" false none [] (by decide) rfl⟩

/-- Claim C8: a greeting question short-circuits the whole pipeline — the
canned greeting is returned with zero similarity searches and zero
language-model calls, whatever the global state and session. -/
theorem greeting_short_circuits_pipeline (env : Env) (question : String)
    (hasSession : Bool) (h : is_greeting question = true) :
    (get_answer env question hasSession).answer = greeting_response ∧
    (get_answer env question hasSession).searchCalls = [] ∧
    (get_answer env question hasSession).rewriteLlmCalls = 0 ∧
    (get_answer env question hasSession).answerLlmCalls = 0 := by
  simp [get_answer, h]

/-- Claim C8 witness: a "hello" question is answered by the canned greeting
with no search and no model call. -/
theorem greeting_short_circuits_pipeline_witness :
    is_greeting "hello" = true ∧
    ((get_answer ⟨true, none, none, []⟩ "hello" true).answer = greeting_response ∧
     (get_answer ⟨true, none, none, []⟩ "hello" true).searchCalls = [] ∧
     (get_answer ⟨true, none, none, []⟩ "hello" true).rewriteLlmCalls = 0 ∧
     (get_answer ⟨true, none, none, []⟩ "hello" true).answerLlmCalls = 0) :=
  ⟨by decide,
   greeting_short_circuits_pipeline ⟨true, none, none, []⟩ "hello" true (by decide)⟩

/-- Shape of any `get_answer` run that passes the readiness checks: every
observable field as a function of the computed search query and the retrieval
result.  Shared backbone for the claim theorems below. -/
theorem get_answer_core (env : Env) (question : String) (hasSession : Bool)
    (hg : is_greeting question = false) (hl : env.is_loading = false)
    (store : VectorStore) (hdb : env.db = some store)
    (llm : LLMClient) (hllm : env.gemini_client = some llm) :
    (get_answer env question hasSession).queryUsed
      = some (computed_search_query llm env.history question hasSession) ∧
    (get_answer env question hasSession).searchCalls
      = (retrieval_of store question
          (computed_search_query llm env.history question hasSession)).2 ∧
    (get_answer env question hasSession).retrieved
      = (retrieval_of store question
          (computed_search_query llm env.history question hasSession)).1 ∧
    (get_answer env question hasSession).contextUsed
      = (if (retrieval_of store question
            (computed_search_query llm env.history question hasSession)).1.isEmpty
         then none
         else some (pyJoin "\n\n---\n\n"
           ((retrieval_of store question
              (computed_search_query llm env.history question hasSession)).1.map
             Document.page_content))) ∧
    (get_answer env question hasSession).rewriteLlmCalls
      = (if hasSession && !env.history.isEmpty then 1 else 0) ∧
    (get_answer env question hasSession).answerLlmCalls
      = (if (retrieval_of store question
            (computed_search_query llm env.history question hasSession)).1.isEmpty
         then 0 else 1) ∧
    (get_answer env question hasSession).answer
      = (if (retrieval_of store question
            (computed_search_query llm env.history question hasSession)).1.isEmpty
         then no_docs_response
         else
           match llm (answer_prompt
              (pyJoin "\n\n---\n\n"
                ((retrieval_of store question
                   (computed_search_query llm env.history question hasSession)).1.map
                  Document.page_content))
              question (is_list_query question)) with
           | Except.ok t => pyStrip t
           | Except.error e =>
             if is_network_error e then network_error_response
             else generic_error_response) := by
  obtain ⟨il, odb, ogc, hist⟩ := env
  simp only at hl hdb hllm
  subst hl; subst hdb; subst hllm
  simp only [get_answer, hg, Bool.false_eq_true, if_false]
  cases hemp : (retrieval_of store question
      (computed_search_query llm hist question hasSession)).1.isEmpty with
  | true => simp [hemp]
  | false =>
    cases hres : llm (answer_prompt
        (pyJoin "\n\n---\n\n"
          ((retrieval_of store question
             (computed_search_query llm hist question hasSession)).1.map
            Document.page_content))
        question (is_list_query question)) with
    | ok t => simp [hemp, hres]
    | error e =>
      cases hne : is_network_error e with
      | true => simp [hemp, hres, hne]
      | false => simp [hemp, hres, hne]

/-- Claim C7: when the call passes the readiness checks and retrieval yields
no chunks, the answer is the fixed could-not-find message, no synthesis call
is made, and no context is assembled. -/
theorem empty_retrieval_fixed_message (env : Env) (question : String)
    (hasSession : Bool)
    (hg : is_greeting question = false) (hl : env.is_loading = false)
    (store : VectorStore) (hdb : env.db = some store)
    (llm : LLMClient) (hllm : env.gemini_client = some llm)
    (hempty : (get_answer env question hasSession).retrieved = []) :
    (get_answer env question hasSession).answer = no_docs_response ∧
    (get_answer env question hasSession).answerLlmCalls = 0 ∧
    (get_answer env question hasSession).contextUsed = none := by
  obtain ⟨_, _, hret, hctx, _, hcnt, hans⟩ :=
    get_answer_core env question hasSession hg hl store hdb llm hllm
  rw [hret] at hempty
  rw [hempty] at hctx hcnt hans
  simp only [List.isEmpty_nil, if_true] at hctx hcnt hans
  exact ⟨hans, hcnt, hctx⟩

/-- Claim C7 witness: on a zero-chunk index every search comes back empty and
a non-greeting question gets the could-not-find message with no model call. -/
theorem empty_retrieval_fixed_message_witness :
    is_greeting "what do you provide" = false ∧
    (get_answer ⟨false, some ⟨fun _ _ => []⟩, some (fun _ => Except.ok "hi"), []⟩
        "what do you provide" false).retrieved = [] ∧
    ((get_answer ⟨false, some ⟨fun _ _ => []⟩, some (fun _ => Except.ok "hi"), []⟩
        "what do you provide" false).answer = no_docs_response ∧
     (get_answer ⟨false, some ⟨fun _ _ => []⟩, some (fun _ => Except.ok "hi"), []⟩
        "what do you provide" false).answerLlmCalls = 0 ∧
     (get_answer ⟨false, some ⟨fun _ _ => []⟩, some (fun _ => Except.ok "hi"), []⟩
        "what do you provide" false).contextUsed = none) :=
  ⟨by decide, by decide,
   empty_retrieval_fixed_message
     ⟨false, some ⟨fun _ _ => []⟩, some (fun _ => Except.ok "hi"), []⟩
     "what do you provide" false (by decide) rfl ⟨fun _ _ => []⟩ rfl
     (fun _ => Except.ok "hi") rfl (by decide)⟩

/-- Claim C9: when the history for the session is empty, or the rewrite call
to the language model fails, the query used for retrieval is the original
question unchanged. -/
theorem rewrite_is_best_effort (env : Env) (question : String)
    (hasSession : Bool)
    (hg : is_greeting question = false) (hl : env.is_loading = false)
    (store : VectorStore) (hdb : env.db = some store)
    (llm : LLMClient) (hllm : env.gemini_client = some llm)
    (hfail : env.history = []
      ∨ ∃ e, llm (rewrite_prompt env.history question) = Except.error e) :
    (get_answer env question hasSession).queryUsed = some question := by
  obtain ⟨hq, _⟩ := get_answer_core env question hasSession hg hl store hdb llm hllm
  rw [hq]
  rcases hfail with hnil | ⟨e, herr⟩
  · rw [hnil]
    simp [computed_search_query]
  · unfold computed_search_query
    cases hatt : hasSession && !env.history.isEmpty with
    | false => simp
    | true =>
      simp only [if_true]
      unfold rewrite_question
      rw [herr]

/-- Claim C9 witness: with an empty session history the retrieval query is the
original question. -/
theorem rewrite_is_best_effort_witness :
    is_greeting "what services do you have" = false ∧
    (get_answer ⟨false, some ⟨fun _ _ => [⟨"chunk"⟩]⟩,
        some (fun _ => Except.error "boom"), []⟩
      "what services do you have" true).queryUsed = some "what services do you have" :=
  ⟨by decide,
   rewrite_is_best_effort
     ⟨false, some ⟨fun _ _ => [⟨"chunk"⟩]⟩, some (fun _ => Except.error "boom"), []⟩
     "what services do you have" true (by decide) rfl ⟨fun _ _ => [⟨"chunk"⟩]⟩ rfl
     (fun _ => Except.error "boom") rfl (Or.inl rfl)⟩

/-- All documents returned by the additional category searches, in search
order. -/
def batched_results (store : VectorStore) (queries : List String) : List Document :=
  (queries.map (fun aq => store.search aq 5)).flatten

/-- Running the dedup pass over a concatenation equals running it batch by
batch. -/
theorem addNewDocs_append (xs ys : List Document) (acc : List Document)
    (seen : List String) :
    addNewDocs acc seen (xs ++ ys)
      = addNewDocs (addNewDocs acc seen xs).1 (addNewDocs acc seen xs).2 ys := by
  induction xs generalizing acc seen with
  | nil => rfl
  | cons d ds ih =>
    cases h : seen.contains (fingerprint d) with
    | true =>
      simp only [List.cons_append, addNewDocs, h, if_true]
      exact ih _ _
    | false =>
      simp only [List.cons_append, addNewDocs, h, Bool.false_eq_true, if_false]
      exact ih _ _

/-- The dedup pass keeps the accumulated fingerprints pairwise distinct and
keeps `seen` covering them. -/
theorem addNewDocs_invariant (xs : List Document) (acc : List Document)
    (seen : List String)
    (hcov : ∀ d ∈ acc, fingerprint d ∈ seen)
    (hpw : acc.Pairwise (fun a b => fingerprint a ≠ fingerprint b)) :
    (∀ d ∈ (addNewDocs acc seen xs).1, fingerprint d ∈ (addNewDocs acc seen xs).2) ∧
    (addNewDocs acc seen xs).1.Pairwise (fun a b => fingerprint a ≠ fingerprint b) := by
  induction xs generalizing acc seen with
  | nil => exact ⟨hcov, hpw⟩
  | cons d ds ih =>
    cases h : seen.contains (fingerprint d) with
    | true =>
      simp only [addNewDocs, h, if_true]
      exact ih acc seen hcov hpw
    | false =>
      simp only [addNewDocs, h, Bool.false_eq_true, if_false]
      have hnotin : fingerprint d ∉ seen := by simpa using h
      apply ih
      · intro x hx
        rcases List.mem_append.mp hx with hx | hx
        · exact List.mem_append.mpr (Or.inl (hcov x hx))
        · rw [List.mem_singleton] at hx
          subst hx
          exact List.mem_append.mpr (Or.inr (List.mem_singleton.mpr rfl))
      · rw [List.pairwise_append]
        refine ⟨hpw, List.pairwise_singleton _ _, ?_⟩
        intro a ha b hb
        rw [List.mem_singleton] at hb
        subst hb
        intro heq
        exact hnotin (heq ▸ hcov a ha)

/-- The dedup pass appends a subsequence of its input batch. -/
theorem addNewDocs_shape (xs : List Document) (acc : List Document)
    (seen : List String) :
    ∃ t, (addNewDocs acc seen xs).1 = acc ++ t ∧ t.Sublist xs := by
  induction xs generalizing acc seen with
  | nil => exact ⟨[], by simp [addNewDocs], List.Sublist.refl _⟩
  | cons d ds ih =>
    cases h : seen.contains (fingerprint d) with
    | true =>
      obtain ⟨t, h1, h2⟩ := ih acc seen
      refine ⟨t, ?_, h2.cons d⟩
      simp only [addNewDocs, h, if_true]
      exact h1
    | false =>
      obtain ⟨t, h1, h2⟩ := ih (acc ++ [d]) (seen ++ [fingerprint d])
      refine ⟨d :: t, ?_, h2.cons₂ d⟩
      simp only [addNewDocs, h, Bool.false_eq_true, if_false]
      rw [h1, List.append_assoc]
      rfl

/-- The additional-search loop equals one dedup pass over the concatenated
batch results, recording one k = 5 call per query. -/
theorem run_additional_searches_spec (store : VectorStore) (queries : List String)
    (acc : List Document) (seen : List String) (calls : List (String × Nat)) :
    run_additional_searches store acc seen calls queries
      = ((addNewDocs acc seen (batched_results store queries)).1,
         (addNewDocs acc seen (batched_results store queries)).2,
         calls ++ queries.map (fun aq => (aq, 5))) := by
  induction queries generalizing acc seen calls with
  | nil => simp [run_additional_searches, batched_results, addNewDocs]
  | cons aq rest ih =>
    have hb : batched_results store (aq :: rest)
        = store.search aq 5 ++ batched_results store rest := by
      simp [batched_results]
    simp only [run_additional_searches]
    rw [ih, hb, addNewDocs_append]
    simp

/-- `get_comprehensive_docs` in closed form: one dedup pass over the primary
search results followed by the category batches, with the recorded calls
being the primary `(query, k)` and one `(variant, 5)` per category variant. -/
theorem get_comprehensive_docs_spec (store : VectorStore) (query : String) (k : Nat) :
    get_comprehensive_docs store query k
      = ((addNewDocs [] [] (store.search query k
            ++ batched_results store (additional_search_queries query))).1,
         (query, k) :: (additional_search_queries query).map (fun aq => (aq, 5))) := by
  simp only [get_comprehensive_docs]
  rw [run_additional_searches_spec, ← addNewDocs_append]
  simp

/-- The comprehensive-retrieval output never contains two documents with the
same content-prefix fingerprint. -/
theorem comprehensive_docs_nodup_fingerprints (store : VectorStore)
    (query : String) (k : Nat) :
    (get_comprehensive_docs store query k).1.Pairwise
      (fun a b => fingerprint a ≠ fingerprint b) := by
  rw [get_comprehensive_docs_spec]
  exact (addNewDocs_invariant _ [] [] (by simp) List.Pairwise.nil).2

/-- The comprehensive-retrieval output preserves first-seen order: it is a
subsequence of the concatenated search results. -/
theorem comprehensive_docs_sublist (store : VectorStore) (query : String)
    (k : Nat) :
    (get_comprehensive_docs store query k).1.Sublist
      (store.search query k
        ++ batched_results store (additional_search_queries query)) := by
  rw [get_comprehensive_docs_spec]
  obtain ⟨t, h1, h2⟩ := addNewDocs_shape
    (store.search query k ++ batched_results store (additional_search_queries query)) [] []
  rw [List.nil_append] at h1
  rw [h1]
  exact h2

/-- Claim C5 counterexample: "list everything" matches the enumeration
pattern, yet exactly one similarity search is issued, because the query
contains no service/job/blog category keyword and therefore gets no
additional targeted searches. -/
theorem list_query_single_search :
    is_list_query "list everything" = true ∧
    (get_answer ⟨false, some ⟨fun _ _ => [⟨"alpha"⟩]⟩,
        some (fun _ => Except.ok "ans"), []⟩
      "list everything" false).searchCalls.length = 1 := by
  exact ⟨by decide, by decide⟩

/-- Claim C5 amended: for an enumeration-style question that reaches
retrieval, the pipeline runs the primary search at k = 15 plus one k = 5
search per category variant of the (possibly rewritten) query — so more than
one search happens exactly when the query matches a service/job/blog
category keyword — and the returned documents carry pairwise-distinct
content-prefix fingerprints, in first-seen order (a subsequence of the
concatenated search results). -/
theorem comprehensive_retrieval_characterization (env : Env) (question : String)
    (hasSession : Bool)
    (hg : is_greeting question = false) (hl : env.is_loading = false)
    (store : VectorStore) (hdb : env.db = some store)
    (llm : LLMClient) (hllm : env.gemini_client = some llm)
    (hlist : is_list_query question = true) :
    (get_answer env question hasSession).searchCalls
      = (computed_search_query llm env.history question hasSession, 15)
        :: (additional_search_queries
             (computed_search_query llm env.history question hasSession)).map
            (fun aq => (aq, 5)) ∧
    (get_answer env question hasSession).retrieved.Pairwise
      (fun a b => fingerprint a ≠ fingerprint b) ∧
    (get_answer env question hasSession).retrieved.Sublist
      (store.search (computed_search_query llm env.history question hasSession) 15
        ++ batched_results store
            (additional_search_queries
              (computed_search_query llm env.history question hasSession))) := by
  obtain ⟨_, hcalls, hret, _⟩ :=
    get_answer_core env question hasSession hg hl store hdb llm hllm
  rw [hcalls, hret]
  unfold retrieval_of
  rw [hlist]
  simp only [if_true]
  refine ⟨?_, comprehensive_docs_nodup_fingerprints _ _ _,
    comprehensive_docs_sublist _ _ _⟩
  rw [get_comprehensive_docs_spec]

/-- Claim C5 witness: "list all your services" triggers the primary search
plus the four service-category searches, with deduplicated results. -/
theorem comprehensive_retrieval_characterization_witness :
    is_list_query "list all your services" = true ∧
    ((get_answer ⟨false, some ⟨fun _ _ => [⟨"svc A"⟩, ⟨"svc A"⟩]⟩,
        some (fun _ => Except.ok "x"), []⟩ "list all your services" false).searchCalls
      = [("list all your services", 15), ("services and solutions", 5),
         ("what we offer", 5), ("our offerings", 5), ("products and services", 5)] ∧
     (get_answer ⟨false, some ⟨fun _ _ => [⟨"svc A"⟩, ⟨"svc A"⟩]⟩,
        some (fun _ => Except.ok "x"), []⟩ "list all your services" false).retrieved.Pairwise
      (fun a b => fingerprint a ≠ fingerprint b) ∧
     (get_answer ⟨false, some ⟨fun _ _ => [⟨"svc A"⟩, ⟨"svc A"⟩]⟩,
        some (fun _ => Except.ok "x"), []⟩ "list all your services" false).retrieved.Sublist
      ((⟨fun _ _ => [⟨"svc A"⟩, ⟨"svc A"⟩]⟩ : VectorStore).search "list all your services" 15
        ++ batched_results ⟨fun _ _ => [⟨"svc A"⟩, ⟨"svc A"⟩]⟩
            (additional_search_queries "list all your services"))) :=
  ⟨by decide,
   comprehensive_retrieval_characterization
     ⟨false, some ⟨fun _ _ => [⟨"svc A"⟩, ⟨"svc A"⟩]⟩, some (fun _ => Except.ok "x"), []⟩
     "list all your services" false (by decide) rfl
     ⟨fun _ _ => [⟨"svc A"⟩, ⟨"svc A"⟩]⟩ rfl
     (fun _ => Except.ok "x") rfl (by decide)⟩

/-- Claim C1 counterexample: the context handed to the model is not truncated
to any character budget — a single retrieved chunk of 100001 characters makes
the assembled context exceed 100000 characters. -/
theorem context_budget_exceeded :
    (get_answer ⟨false,
        some ⟨fun _ _ => [⟨String.mk (List.replicate 100001 'a')⟩]⟩,
        some (fun _ => Except.ok "ok"), []⟩ "what" false).contextUsed
      = some (String.mk (List.replicate 100001 'a')) ∧
    100000 < (String.mk (List.replicate 100001 'a')).length := by
  constructor
  · rfl
  · have h : (String.mk (List.replicate 100001 'a')).length
        = (List.replicate 100001 'a').length := rfl
    rw [h, List.length_replicate]
    omega

/-- Claim C1 amended: whenever `get_answer` assembles a context, that context
is exactly the separator-join of all retrieved chunk texts — no character
budget and no truncation is applied anywhere. -/
theorem context_is_untruncated_join (env : Env) (question : String)
    (hasSession : Bool) (c : String)
    (hc : (get_answer env question hasSession).contextUsed = some c) :
    c = pyJoin "\n\n---\n\n"
      ((get_answer env question hasSession).retrieved.map Document.page_content) := by
  obtain ⟨il, odb, ogc, hist⟩ := env
  cases hgq : is_greeting question with
  | true => simp [get_answer, hgq] at hc
  | false =>
    cases il with
    | true => simp [get_answer, hgq] at hc
    | false =>
      cases odb with
      | none => simp [get_answer, hgq] at hc
      | some store =>
        cases ogc with
        | none => simp [get_answer, hgq] at hc
        | some llm =>
          obtain ⟨_, _, hret, hctx, _⟩ :=
            get_answer_core ⟨false, some store, some llm, hist⟩ question hasSession
              hgq rfl store rfl llm rfl
          rw [hctx] at hc
          rw [hret]
          cases hemp : (retrieval_of store question
              (computed_search_query llm hist question hasSession)).1.isEmpty with
          | true => rw [hemp] at hc; simp at hc
          | false =>
            rw [hemp] at hc
            simp only [Bool.false_eq_true, if_false, Option.some.injEq] at hc
            exact hc.symm

/-- Claim C1 witness: with two retrieved chunks the assembled context is their
separator-join. -/
theorem context_is_untruncated_join_witness :
    (get_answer ⟨false, some ⟨fun _ _ => [⟨"abc"⟩, ⟨"xyz"⟩]⟩,
        some (fun _ => Except.ok "y"), []⟩ "what" false).contextUsed
      = some ("abc" ++ "\n\n---\n\n" ++ "xyz") ∧
    ("abc" ++ "\n\n---\n\n" ++ "xyz") = pyJoin "\n\n---\n\n"
      ((get_answer ⟨false, some ⟨fun _ _ => [⟨"abc"⟩, ⟨"xyz"⟩]⟩,
          some (fun _ => Except.ok "y"), []⟩ "what" false).retrieved.map
        Document.page_content) :=
  ⟨rfl,
   context_is_untruncated_join
     ⟨false, some ⟨fun _ _ => [⟨"abc"⟩, ⟨"xyz"⟩]⟩, some (fun _ => Except.ok "y"), []⟩
     "what" false ("abc" ++ "\n\n---\n\n" ++ "xyz") rfl⟩

/-- Claim C6 counterexample: failure conditions surface more than three answer
classes — an unset index and an unset model client each yield their own fixed
text, and the six failure texts are pairwise distinct. -/
theorem more_than_three_failure_texts :
    (get_answer ⟨false, none, none, []⟩ "what" false).answer
      = db_unavailable_response ∧
    (get_answer ⟨false, some ⟨fun _ _ => []⟩, none, []⟩ "what" false).answer
      = ai_unavailable_response ∧
    failure_responses.Nodup := by
  refine ⟨rfl, rfl, ?_⟩
  decide

/-- Claim C6 amended: every `get_answer` outcome is the canned greeting, one
of exactly six fixed failure texts (still-loading, knowledge-base
unavailable, AI-service unavailable, nothing-found, network failure, generic
failure), or the stripped text of a successful model response. -/
theorem answer_text_classification (env : Env) (question : String)
    (hasSession : Bool) :
    (get_answer env question hasSession).answer = greeting_response ∨
    (get_answer env question hasSession).answer ∈ failure_responses ∨
    (∃ (llm : LLMClient) (p t : String), env.gemini_client = some llm ∧
      llm p = Except.ok t ∧
      (get_answer env question hasSession).answer = pyStrip t) := by
  obtain ⟨il, odb, ogc, hist⟩ := env
  cases hgq : is_greeting question with
  | true => left; simp [get_answer, hgq]
  | false =>
    cases il with
    | true => right; left; simp [get_answer, hgq, failure_responses]
    | false =>
      cases odb with
      | none => right; left; simp [get_answer, hgq, failure_responses]
      | some store =>
        cases ogc with
        | none => right; left; simp [get_answer, hgq, failure_responses]
        | some llm =>
          obtain ⟨_, _, _, _, _, _, hans⟩ :=
            get_answer_core ⟨false, some store, some llm, hist⟩ question hasSession
              hgq rfl store rfl llm rfl
          cases hemp : (retrieval_of store question
              (computed_search_query llm hist question hasSession)).1.isEmpty with
          | true =>
            right; left
            rw [hans, hemp]
            simp [failure_responses]
          | false =>
            rw [hemp] at hans
            simp only [Bool.false_eq_true, if_false] at hans
            cases hres : llm (answer_prompt
                (pyJoin "\n\n---\n\n"
                  ((retrieval_of store question
                     (computed_search_query llm hist question hasSession)).1.map
                    Document.page_content))
                question (is_list_query question)) with
            | ok t =>
              right; right
              refine ⟨llm, _, t, rfl, hres, ?_⟩
              rw [hans, hres]
            | error e =>
              right; left
              rw [hans, hres]
              cases hne : is_network_error e with
              | true => simp [hne, failure_responses]
              | false => simp [hne, failure_responses]

end RagBot
